import Mathlib

/-!
Verification of the `calories` plugin (`jarviscli/plugins/calories_macros.py`).

The plugin collects six validated fields (gender, age, height, weight,
activity level, goal), runs a pure numeric pipeline RMR → TDEE →
goal-adjusted daily calorie intake, and then emits either a caution
message or a goal-specific recommendation.

Modelling conventions:
- Python real arithmetic is modelled exactly over `ℚ`; the decimal
  literals of the source (6.25, 1.2, 1.375, 1.55, 1.725) are exact
  rationals here.
- Python `round` is round-half-to-even (`pyRound`).
- A Python exception is modelled by `Option` (`none` = an exception was
  raised) or, where the exception kind matters, by `Except PyError`.
- The interactive `say`/print side effects are modelled by a message
  datatype `CalorieMessage` recording which message is emitted and which
  numeric value (if any) it contains.
-/

namespace CaloriesMacros

/-- Python `round` on an exact rational value: round half to even. -/
def pyRound (q : ℚ) : ℤ :=
  if q - ⌊q⌋ < 1/2 then ⌊q⌋
  else if 1/2 < q - ⌊q⌋ then ⌊q⌋ + 1
  else if ⌊q⌋ % 2 = 0 then ⌊q⌋ else ⌊q⌋ + 1

/-- `CalorieCalculator.WEIGHT_LOSS`. -/
def WEIGHT_LOSS : ℤ := 1

/-- `CalorieCalculator.WEIGHT_GAIN`. -/
def WEIGHT_GAIN : ℤ := 3

/-- `CalorieCalculator._calc_rmr` (Mifflin-St Jeor): the gender constant is
`+5` when the stored gender string equals "M" and `-161` otherwise. -/
def calc_rmr (gender : String) (age height weight : ℤ) : ℚ :=
  let WEIGHT_FACTOR : ℚ := 10
  let HEIGHT_FACTOR : ℚ := 6.25
  let AGE_FACTOR : ℚ := -5
  let MALE_CONSTANT : ℚ := 5
  let FEMALE_CONSTANT : ℚ := -161
  let gender_constant : ℚ :=
    if gender = "M" then MALE_CONSTANT else FEMALE_CONSTANT
  WEIGHT_FACTOR * weight + HEIGHT_FACTOR * height + AGE_FACTOR * age +
    gender_constant

/-- The `ACTIVITY_FACTORS` dict of `_calc_tdee`, accessed with `.get`
(which yields `None`, i.e. `none`, on a missing key). -/
def ACTIVITY_FACTORS_get (activity_level : ℤ) : Option ℚ :=
  if activity_level = 1 then some 1.2
  else if activity_level = 2 then some 1.375
  else if activity_level = 3 then some 1.55
  else if activity_level = 4 then some 1.725
  else none

/-- `CalorieCalculator._calc_tdee`: `round(rmr * ACTIVITY_FACTORS.get(level))`.
A missing key makes `.get` return `None` and `rmr * None` raises a
`TypeError`; the raised exception is modelled by the result `none`. -/
def calc_tdee (activity_level : ℤ) (rmr : ℚ) : Option ℤ :=
  (ACTIVITY_FACTORS_get activity_level).map (fun factor => pyRound (rmr * factor))

/-- `CalorieCalculator._calc_daily_calorie_intake`: subtract 500 for
weight loss, add 500 for weight gain, otherwise keep the TDEE. -/
def calc_daily_calorie_intake_from_tdee (goal tdee : ℤ) : ℤ :=
  if goal = WEIGHT_LOSS then tdee - 500
  else if goal = WEIGHT_GAIN then tdee + 500
  else tdee

/-- `CalorieCalculator.calc_daily_calorie_intake`: the full pipeline
RMR → TDEE → goal adjustment; `none` when the TDEE lookup raised. -/
def calc_daily_calorie_intake (gender : String)
    (age height weight activity_level goal : ℤ) : Option ℤ :=
  (calc_tdee activity_level (calc_rmr gender age height weight)).map
    (calc_daily_calorie_intake_from_tdee goal)

/-- The message emitted by `display_calorie_results`, abstracted from its
wording: two caution messages (carrying no number) and three
goal-specific recommendations carrying the computed intake. -/
inductive CalorieMessage
  | cautionMale
  | cautionFemale
  | recLose (cal_intake : ℤ)
  | recGain (cal_intake : ℤ)
  | recMaintain (cal_intake : ℤ)
deriving DecidableEq

/-- The numeric value contained in an emitted message, if any: the
caution messages suppress the numeric recommendation. -/
def numericContent : CalorieMessage → Option ℤ
  | .cautionMale => none
  | .cautionFemale => none
  | .recLose n => some n
  | .recGain n => some n
  | .recMaintain n => some n

/-- `CalorieCalculator.display_calorie_results`: threshold check against
1500 (males) / 1200 (females) on the already goal-adjusted intake, then
a goal-specific recommendation. -/
def display_calorie_results (gender : String) (goal cal_intake : ℤ) :
    CalorieMessage :=
  if gender = "M" ∧ cal_intake < 1500 then .cautionMale
  else if gender = "F" ∧ cal_intake < 1200 then .cautionFemale
  else if goal = WEIGHT_LOSS then .recLose cal_intake
  else if goal = WEIGHT_GAIN then .recGain cal_intake
  else .recMaintain cal_intake

/-- The tail of `CaloriesMacrosPlugin.__call__`: compute the daily intake
with the collected fields, then display the result for that intake. -/
def plugin_call (gender : String)
    (age height weight activity_level goal : ℤ) : Option CalorieMessage :=
  (calc_daily_calorie_intake gender age height weight activity_level goal).map
    (display_calorie_results gender goal)

/-- Helper for modelling Python `int(s)`: a nonempty all-digit string of
characters parses to the denoted natural number, anything else fails. -/
def parseDigits (cs : List Char) : Option ℕ :=
  if cs.isEmpty then none
  else if cs.all Char.isDigit then
    some (cs.foldl (fun acc c => 10 * acc + (c.toNat - 48)) 0)
  else none

/-- Models Python `int(s)` on one line of raw input: an optional sign
followed by one or more decimal digits; `none` models the `ValueError`
raised on any other string (such as "x" or "175.5"). -/
def str_to_int (s : String) : Option ℤ :=
  match s.toList with
  | [] => none
  | c :: rest =>
    if c = '-' then (parseDigits rest).map (fun n => -(n : ℤ))
    else if c = '+' then (parseDigits rest).map (fun n => (n : ℤ))
    else (parseDigits (c :: rest)).map (fun n => (n : ℤ))

/-- The Python exception kinds arising in this module: `ValueError` from
`int()` parsing, the module's own `ValueOutOfRangeError` sentinel, and
`TypeError` (raised elsewhere, e.g. by arithmetic on `None`). -/
inductive PyError
  | valueError
  | valueOutOfRangeError
  | typeError
deriving DecidableEq

/-- The `try` body of `CaloriesMacrosPlugin.validate_input`: parse the
raw input with `int` (raising `ValueError` on failure), raise
`ValueOutOfRangeError` when the field's rejection predicate holds, and
return `True` otherwise. -/
def validate_input_body (input : String) (bool_expression : ℤ → Bool) :
    Except PyError Bool :=
  match str_to_int input with
  | none => .error .valueError
  | some n =>
    if bool_expression n then .error .valueOutOfRangeError else .ok true

/-- The `except (ValueError, ValueOutOfRangeError)` clause of
`validate_input`: exactly those two exception kinds are caught and turned
into `False`; any other exception would propagate (result `none`). -/
def validate_input_catch : Except PyError Bool → Option Bool
  | .ok b => some b
  | .error .valueError => some false
  | .error .valueOutOfRangeError => some false
  | .error .typeError => none

/-- `CaloriesMacrosPlugin.validate_input` as the caller observes it. -/
def validate_input (input : String) (bool_expression : ℤ → Bool) : Bool :=
  (validate_input_catch (validate_input_body input bool_expression)).getD false

/-- `CaloriesMacrosPlugin.read_input`: keep prompting until an input
passes `validate_input`, then return `int(input)`. The pending user
answers are modelled as a list; `none` means the stream ran out (the real
loop would keep prompting forever). -/
def read_input (bool_expression : ℤ → Bool) : List String → Option ℤ
  | [] => none
  | input :: rest =>
    if validate_input input bool_expression then str_to_int input
    else read_input bool_expression rest

/-- The rejection predicate `__call__` passes to `read_input` for age. -/
def age_rejected (age : ℤ) : Bool := age < 14

/-- The rejection predicate `__call__` passes to `read_input` for height. -/
def height_rejected (height : ℤ) : Bool := height ≤ 0

/-- The rejection predicate `__call__` passes to `read_input` for weight. -/
def weight_rejected (weight : ℤ) : Bool := weight ≤ 0

/-- The rejection predicate `__call__` passes to `read_input` for the
activity level. -/
def activity_level_rejected (activity_level : ℤ) : Bool :=
  !(1 ≤ activity_level ∧ activity_level ≤ 4)

/-- The rejection predicate `__call__` passes to `read_input` for the goal. -/
def goal_rejected (goal : ℤ) : Bool := !(1 ≤ goal ∧ goal ≤ 3)

/-- Evaluation helper: `pyRound q = n + 1` when the fractional part of
`q` is strictly above one half. -/
theorem pyRound_up (q : ℚ) (n : ℤ) (h1 : (n : ℚ) ≤ q) (h2 : q < n + 1)
    (h3 : 1/2 < q - n) : pyRound q = n + 1 := by
  have hf : ⌊q⌋ = n := Int.floor_eq_iff.mpr ⟨h1, h2⟩
  unfold pyRound
  rw [hf, if_neg (by linarith), if_pos h3]

/-- Evaluation helper: `pyRound q = n` when the fractional part of `q`
is strictly below one half. -/
theorem pyRound_down (q : ℚ) (n : ℤ) (h1 : (n : ℚ) ≤ q) (h2 : q < n + 1)
    (h3 : q - n < 1/2) : pyRound q = n := by
  have hf : ⌊q⌋ = n := Int.floor_eq_iff.mpr ⟨h1, h2⟩
  unfold pyRound
  rw [hf, if_pos h3]

/-- TDEE evaluation at activity level 2 and RMR 1805:
`round(1805 * 1.375) = round(2481.875) = 2482`. -/
theorem tdee_example_eval : calc_tdee 2 1805 = some 2482 := by
  have hq : (1805 : ℚ) * 1.375 = 19855 / 8 := by norm_num
  have hround : pyRound ((1805 : ℚ) * 1.375) = 2482 := by
    rw [hq, pyRound_up (19855 / 8) 2481 (by norm_num) (by norm_num) (by norm_num)]
    norm_num
  simp [calc_tdee, ACTIVITY_FACTORS_get, hround]

/-- Pipeline evaluation at the spec's example input: gender M, age 25,
height 180 cm, weight 80 kg, activity level 2, goal maintain. -/
theorem pipeline_example_eval :
    calc_daily_calorie_intake "M" 25 180 80 2 2 = some 2482 := by
  have hr : calc_rmr "M" 25 180 80 = 1805 := by norm_num [calc_rmr]
  simp [calc_daily_calorie_intake, hr, tdee_example_eval,
    calc_daily_calorie_intake_from_tdee, WEIGHT_LOSS, WEIGHT_GAIN]

/-- C2: for every age, height, weight, the RMR for gender "M" is
`10*weight + 6.25*height - 5*age + 5`, and for any other gender value
(in particular "F") it is `10*weight + 6.25*height - 5*age - 161`. -/
theorem rmr_gender_formula (gender : String) (age height weight : ℤ) :
    (gender = "M" →
      calc_rmr gender age height weight =
        10 * (weight : ℚ) + 6.25 * (height : ℚ) - 5 * (age : ℚ) + 5) ∧
    (gender ≠ "M" →
      calc_rmr gender age height weight =
        10 * (weight : ℚ) + 6.25 * (height : ℚ) - 5 * (age : ℚ) - 161) := by
  constructor <;> intro h <;> simp [calc_rmr, h] <;> ring

/-- Witness for C2 at gender "M", age 25, height 180, weight 80. -/
theorem rmr_gender_formula_witness :
    calc_rmr "M" 25 180 80 =
      10 * ((80 : ℤ) : ℚ) + 6.25 * ((180 : ℤ) : ℚ) - 5 * ((25 : ℤ) : ℚ) + 5 :=
  (rmr_gender_formula "M" 25 180 80).1 rfl

/-- C3: for every activity level in {1,2,3,4} and every RMR, the TDEE is
`round(rmr * factor)` with factor 1.2 / 1.375 / 1.55 / 1.725. -/
theorem tdee_factor_lookup (activity_level : ℤ) (rmr : ℚ) :
    (activity_level = 1 →
      calc_tdee activity_level rmr = some (pyRound (rmr * 1.2))) ∧
    (activity_level = 2 →
      calc_tdee activity_level rmr = some (pyRound (rmr * 1.375))) ∧
    (activity_level = 3 →
      calc_tdee activity_level rmr = some (pyRound (rmr * 1.55))) ∧
    (activity_level = 4 →
      calc_tdee activity_level rmr = some (pyRound (rmr * 1.725))) := by
  refine ⟨?_, ?_, ?_, ?_⟩ <;> rintro rfl <;>
    simp [calc_tdee, ACTIVITY_FACTORS_get]

/-- Witness for C3 at activity level 2 and RMR 1805. -/
theorem tdee_factor_lookup_witness :
    calc_tdee 2 1805 = some (pyRound (1805 * 1.375)) :=
  (tdee_factor_lookup 2 1805).2.1 rfl

/-- C4: goal 1 subtracts 500 from the TDEE, goal 3 adds 500, goal 2
leaves it unchanged, and no lower clamp is applied (a TDEE of 0 with
goal 1 yields the negative intake -500). -/
theorem goal_adjustment (tdee : ℤ) :
    calc_daily_calorie_intake_from_tdee 1 tdee = tdee - 500 ∧
    calc_daily_calorie_intake_from_tdee 3 tdee = tdee + 500 ∧
    calc_daily_calorie_intake_from_tdee 2 tdee = tdee ∧
    calc_daily_calorie_intake_from_tdee 1 0 < 0 := by
  refine ⟨?_, ?_, ?_, ?_⟩ <;>
    norm_num [calc_daily_calorie_intake_from_tdee, WEIGHT_LOSS, WEIGHT_GAIN]

/-- C5: on the spec's worked example (gender M, age 25, height 180,
weight 80, activity level 2, goal maintain) the pipeline yields RMR 1805,
TDEE 2482 and intake 2482, and since 2482 ≥ 1500 the emitted message is
the maintain recommendation carrying 2482, not a caution. -/
theorem example_scenario_2482 :
    calc_rmr "M" 25 180 80 = 1805 ∧
    calc_tdee 2 1805 = some 2482 ∧
    calc_daily_calorie_intake "M" 25 180 80 2 2 = some 2482 ∧
    display_calorie_results "M" 2 2482 = .recMaintain 2482 ∧
    numericContent (display_calorie_results "M" 2 2482) = some 2482 := by
  refine ⟨by norm_num [calc_rmr], tdee_example_eval, pipeline_example_eval, ?_, ?_⟩ <;>
    norm_num [display_calorie_results, WEIGHT_LOSS, WEIGHT_GAIN, numericContent]

/-- C6: for fixed age, height and weight, the male RMR exceeds the
female RMR by exactly 166. -/
theorem rmr_male_minus_female (age height weight : ℤ) :
    calc_rmr "M" age height weight = calc_rmr "F" age height weight + 166 := by
  simp [calc_rmr]
  ring

/-- C7: an activity level outside {1,2,3,4} reaching the TDEE lookup
makes the calculator raise (the `.get` miss yields `None` and the
multiplication raises `TypeError`, modelled by `none`): no number is
silently returned. -/
theorem tdee_invalid_level_raises (activity_level : ℤ) (rmr : ℚ)
    (h1 : activity_level ≠ 1) (h2 : activity_level ≠ 2)
    (h3 : activity_level ≠ 3) (h4 : activity_level ≠ 4) :
    calc_tdee activity_level rmr = none := by
  simp [calc_tdee, ACTIVITY_FACTORS_get, h1, h2, h3, h4]

/-- Witness for C7 at activity level 5 and RMR 1805. -/
theorem tdee_invalid_level_raises_witness : calc_tdee 5 1805 = none :=
  tdee_invalid_level_raises 5 1805 (by decide) (by decide) (by decide) (by decide)

/-- Characterisation helper: `validate_input` accepts exactly the inputs
that parse as an integer not hit by the rejection predicate. -/
theorem validate_input_eq_true_iff (input : String) (be : ℤ → Bool) :
    validate_input input be = true ↔
      ∃ m, str_to_int input = some m ∧ be m = false := by
  unfold validate_input validate_input_body
  cases h : str_to_int input with
  | none => simp [validate_input_catch]
  | some m =>
    by_cases hbe : be m <;> simp [hbe, validate_input_catch]

/-- C1: with `intake` the goal-adjusted value computed by the pipeline,
`__call__` displays the message for that intake; a male intake below 1500
or a female intake below 1200 yields the matching caution message, which
carries no number; otherwise the goal-specific recommendation carrying
exactly `intake` is emitted. -/
theorem display_threshold_policy (gender : String)
    (age height weight activity_level goal intake : ℤ)
    (h : calc_daily_calorie_intake gender age height weight activity_level
        goal = some intake) :
    plugin_call gender age height weight activity_level goal =
      some (display_calorie_results gender goal intake) ∧
    (gender = "M" → intake < 1500 →
      display_calorie_results gender goal intake = .cautionMale) ∧
    (gender = "F" → intake < 1200 →
      display_calorie_results gender goal intake = .cautionFemale) ∧
    ((gender = "M" ∧ intake < 1500) ∨ (gender = "F" ∧ intake < 1200) →
      numericContent (display_calorie_results gender goal intake) = none) ∧
    (¬ ((gender = "M" ∧ intake < 1500) ∨ (gender = "F" ∧ intake < 1200)) →
      numericContent (display_calorie_results gender goal intake) =
        some intake ∧
      (goal = 1 → display_calorie_results gender goal intake =
        .recLose intake) ∧
      (goal = 3 → display_calorie_results gender goal intake =
        .recGain intake) ∧
      (goal ≠ 1 → goal ≠ 3 → display_calorie_results gender goal intake =
        .recMaintain intake)) := by
  refine ⟨by simp [plugin_call, h], ?_, ?_, ?_, ?_⟩
  · intro hg hi
    simp [display_calorie_results, hg, hi]
  · intro hg hi
    have hne : ¬ (gender = "M" ∧ intake < 1500) := by
      rintro ⟨hm, -⟩
      rw [hg] at hm
      exact absurd hm (by decide)
    simp [display_calorie_results, hne, hg, hi]
  · rintro (⟨hg, hi⟩ | ⟨hg, hi⟩)
    · simp [display_calorie_results, hg, hi, numericContent]
    · have hne : ¬ (gender = "M" ∧ intake < 1500) := by
        rintro ⟨hm, -⟩
        rw [hg] at hm
        exact absurd hm (by decide)
      simp [display_calorie_results, hne, hg, hi, numericContent]
  · intro hc
    rw [not_or] at hc
    unfold display_calorie_results
    rw [if_neg hc.1, if_neg hc.2]
    unfold WEIGHT_LOSS WEIGHT_GAIN
    refine ⟨?_, ?_, ?_, ?_⟩
    · by_cases h1 : goal = 1
      · simp [h1, numericContent]
      · by_cases h3 : goal = 3 <;> simp [h1, h3, numericContent]
    · intro h1; simp [h1]
    · intro h3
      have h1 : ¬ goal = 1 := by
        rw [h3]; decide
      simp [h1, h3]
    · intro h1 h3
      simp [h1, h3]

/-- Witness for C1 at the worked example input (intake 2482, goal 2):
the plugin emits the message computed for intake 2482. -/
theorem display_threshold_policy_witness :
    plugin_call "M" 25 180 80 2 2 =
      some (display_calorie_results "M" 2 2482) :=
  (display_threshold_policy "M" 25 180 80 2 2 2482 pipeline_example_eval).1

/-- C8: `validate_input` returns `False` both on a parse failure and on
a range violation, `True` otherwise, and every value the `read_input`
loop returns is an integer that the field's rejection predicate does not
reject. -/
theorem validate_and_read_contract (bool_expression : ℤ → Bool)
    (input : String) (inputs : List String) (n : ℤ) :
    (str_to_int input = none →
      validate_input input bool_expression = false) ∧
    (∀ m, str_to_int input = some m → bool_expression m = true →
      validate_input input bool_expression = false) ∧
    (∀ m, str_to_int input = some m → bool_expression m = false →
      validate_input input bool_expression = true) ∧
    (read_input bool_expression inputs = some n →
      bool_expression n = false) := by
  refine ⟨?_, ?_, ?_, ?_⟩
  · intro h
    simp [validate_input, validate_input_body, h, validate_input_catch]
  · intro m hm hbe
    simp [validate_input, validate_input_body, hm, hbe, validate_input_catch]
  · intro m hm hbe
    simp [validate_input, validate_input_body, hm, hbe, validate_input_catch]
  · induction inputs with
    | nil => intro h; simp [read_input] at h
    | cons s rest ih =>
      intro h
      by_cases hv : validate_input s bool_expression
      · rw [read_input, if_pos hv] at h
        obtain ⟨m, hm, hbe⟩ := (validate_input_eq_true_iff s bool_expression).mp hv
        rw [hm] at h
        cases h
        exact hbe
      · rw [read_input, if_neg hv] at h
        exact ih h

/-- Witness for C8: "x" fails to parse and is rejected for the age
field, while the accepted value 25 is not rejected by the age predicate. -/
theorem validate_and_read_contract_witness :
    validate_input "x" age_rejected = false ∧ age_rejected 25 = false :=
  ⟨(validate_and_read_contract age_rejected "x" ["x", "25"] 25).1 (by decide),
   (validate_and_read_contract age_rejected "x" ["x", "25"] 25).2.2.2 (by decide)⟩

/-- C9 counterexample: the raw input "175.5" denotes a positive number,
yet the Input Collector rejects it for both the height and the weight
field, because `int("175.5")` raises `ValueError`. -/
theorem decimal_height_weight_rejected :
    validate_input "175.5" height_rejected = false ∧
    validate_input "175.5" weight_rejected = false := by decide

/-- C9 (amended): the collector parses height and weight with `int`, so
among inputs that parse as integers exactly the strictly positive ones
are accepted; non-integer decimals such as "175.5" are rejected. -/
theorem height_weight_accept_positive_integers (s : String) (n : ℤ)
    (h : str_to_int s = some n) :
    (validate_input s height_rejected = true ↔ 0 < n) ∧
    (validate_input s weight_rejected = true ↔ 0 < n) := by
  constructor <;>
  · rw [validate_input_eq_true_iff]
    constructor
    · rintro ⟨m, hm, hbe⟩
      rw [h] at hm
      cases hm
      simpa [height_rejected, weight_rejected] using hbe
    · intro hn
      refine ⟨n, h, ?_⟩
      simpa [height_rejected, weight_rejected] using hn

/-- Witness for C9 (amended): "175" parses to the positive integer 175
and is accepted as a height. -/
theorem height_weight_accept_positive_integers_witness :
    validate_input "175" height_rejected = true :=
  (height_weight_accept_positive_integers "175" 175 (by decide)).1.mpr (by decide)

/-- C10: `validate_input` is total: whatever the raw input and the
predicate, the `try` body raises only `ValueError` or
`ValueOutOfRangeError`, both of which the `except` clause catches, so
the catch always yields a boolean and no exception escapes. -/
theorem validate_input_never_raises (input : String)
    (bool_expression : ℤ → Bool) :
    (∃ b, validate_input_catch (validate_input_body input bool_expression) =
      some b) ∧
    (∀ e, validate_input_body input bool_expression = .error e →
      (e = .valueError ∨ e = .valueOutOfRangeError) ∧
      validate_input_catch (.error e) = some false) := by
  constructor
  · unfold validate_input_body
    cases str_to_int input with
    | none => exact ⟨false, rfl⟩
    | some m =>
      by_cases hbe : bool_expression m <;> simp [hbe, validate_input_catch]
  · intro e he
    unfold validate_input_body at he
    cases h : str_to_int input with
    | none =>
      rw [h] at he
      cases he
      exact ⟨Or.inl rfl, rfl⟩
    | some m =>
      rw [h] at he
      by_cases hbe : bool_expression m
      · simp only [hbe, if_true] at he
        cases he
        exact ⟨Or.inr rfl, rfl⟩
      · simp [hbe] at he

/-- Witness for C10: on input "x" the body raises `ValueError`, which is
listed in the except clause and caught as `False`. -/
theorem validate_input_never_raises_witness :
    (PyError.valueError = PyError.valueError ∨
      PyError.valueError = PyError.valueOutOfRangeError) ∧
    validate_input_catch (.error .valueError) = some false :=
  (validate_input_never_raises "x" age_rejected).2 .valueError rfl

end CaloriesMacros
